import Mathlib

set_option autoImplicit false

/-
Verification development for the account REST handlers of src/api/account.api.go
(package api). Each handler is embedded as a pure function from a per-request
environment (the results that the external collaborators would return on this
request) to the ordered list of observable side-effecting calls the handler makes
(access check, service calls, audit recording, workbook generation) together with
the single terminal response it writes.
-/

/-- Capabilities checked through resp.CheckAccess; from
sigma/domain/core/access/resource as used in account.api.go. -/
inductive Resource
  | AccountRead
  | AccountWrite
  | AccountExcel
deriving DecidableEq

/-- Audit event kinds from sigma/internal/enum/event as used in account.api.go. -/
inductive EventKind
  | AccountView
  | AccountList
  | AccountCreate
  | AccountUpdate
  | AccountDelete
  | AccountExcel
deriving DecidableEq

/-- Localized term keys from sigma/internal/term as used in account.api.go. -/
inductive Term
  | You_dont_have_permission
  | Invalid_ID
  | Record_Not_Found
  | V_info
  | List_of_V
  | V_created_successfully
  | V_updated_successfully
  | V_deleted_successfully
deriving DecidableEq

/-- model.Account (sigma/model, not under src/): the row identifier plus the
remaining entity fields abstracted into one opaque component. types.RowID is
modelled as Nat. -/
structure Account where
  ID : Nat
  fields : String
deriving DecidableEq

/-- The Go zero value of model.Account, as produced by var account model.Account. -/
def emptyAccount : Account := { ID := 0, fields := "" }

/-- A decoded JSON request body: an optional identifier field plus the remaining
body fields abstracted into one opaque component. -/
structure Body where
  bodyID : Option Nat
  fields : String
deriving DecidableEq

/-- Modelled from the spec: the effect of ShouldBindJSON overlaying a decoded
body onto a model.Account value. model.Account and its binding tags live in
sigma/model, which is not under src/, so the overlay semantics is taken from the
spec (section 4.4, Update): decode body, binding identifier first then overlaying
body fields; the identifier in the path is authoritative and must not be
overwritten by a conflicting body identifier. Hence the pre-set identifier is
kept and the non-identifier fields come from the body. -/
def shouldBindJSON (cur : Account) (b : Body) : Account :=
  { ID := cur.ID, fields := b.fields }

/-- An error attached to a response by resp.Error: either a localized term key or
an error value returned by a collaborator (a Go error, abstracted to its
message). -/
inductive ErrVal
  | term (t : Term)
  | svc (e : String)
deriving DecidableEq

/-- Builder state of the response envelope (sigma/internal/response, not under
src/), restricted to the chain resp.Status(..).Error(..).MessageT(..) observed in
the handlers: each call sets one field and returns the builder. -/
structure Response where
  status : Option Nat := none
  message : Option (Term × List String) := none
  err : Option ErrVal := none
deriving DecidableEq

/-- response.New: a fresh builder with nothing set. -/
def Response.new : Response := {}

/-- resp.Status(s): set the explicit HTTP status code. -/
def Response.Status (r : Response) (s : Nat) : Response := { r with status := some s }

/-- resp.Error(e): attach an error value. -/
def Response.Error (r : Response) (e : ErrVal) : Response := { r with err := some e }

/-- resp.MessageT(t, vs): attach a localized message template with its
interpolation arguments. -/
def Response.MessageT (r : Response) (t : Term) (vs : List String) : Response :=
  { r with message := some (t, vs) }

/-- A payload handed to resp.JSON(...). -/
inductive Payload
  | acct (a : Account)
  | page (d : String)
deriving DecidableEq

/-- The single terminal response a handler writes: a standard envelope via
resp...JSON(payload?), a raw abort via c.AbortWithStatusJSON, a raw result via
c.JSON(status, response.Result), or a binary download via c.Header + c.Data. -/
inductive Terminal
  | envelopeJSON (r : Response) (payload : Option Payload)
  | abortJSON (status : Nat) (rawErr : String)
  | rawJSON (status : Nat) (message : String)
  | dataFile (status : Nat) (contentType : String) (headers : List (String × String))
      (body : String)
deriving DecidableEq

/-- The opaque normalized query descriptor produced by param.Get. -/
abbrev Params := String

/-- The observable side-effecting calls a handler makes, in order, before writing
its terminal response. -/
inductive Step
  | checkAccess (r : Resource)
  | svcFindByID (id : Nat)
  | svcList (ps : Params)
  | svcCreate (a : Account) (ps : Params)
  | svcSave (a : Account)
  | svcDelete (id : Nat)
  | svcExcel (ps : Params)
  | record (k : EventKind) (snaps : List (Option Account))
  | excelGenerate
deriving DecidableEq

/-- One request environment: the outcome each external collaborator would return
to this request. CheckAccess returns true when access is denied, matching its
use as a short-circuit guard in the handlers. -/
structure Env where
  access : Resource → Bool
  parseID : Except String Nat
  bindBody : Except String Body
  params : Params
  svcFindByID : Nat → Except String Account
  svcList : Params → Except String String
  svcCreate : Account → Params → Except String Account
  svcSave : Account → Except String Account
  svcDelete : Nat → Except String Account
  svcExcel : Params → Except String (List Account)
  generate : Except String (String × String)

/-- const thisAccount in account.api.go. -/
def thisAccount : String := "account"

/-- const thisAccounts in account.api.go. -/
def thisAccounts : String := "accounts"

/-- The result of running one handler: its ordered observable calls and its
terminal response. -/
abbrev Output := List Step × Terminal

namespace AccountAPI

/-- Handler FindByID of account.api.go. -/
def FindByID (env : Env) : Output :=
  if env.access Resource.AccountRead then
    ([Step.checkAccess Resource.AccountRead],
     Terminal.envelopeJSON
       ((Response.new.Status 403).Error (ErrVal.term Term.You_dont_have_permission)) none)
  else
    match env.parseID with
    | .error _ =>
        ([Step.checkAccess Resource.AccountRead],
         Terminal.envelopeJSON (Response.new.Error (ErrVal.term Term.Invalid_ID)) none)
    | .ok accountID =>
        match env.svcFindByID accountID with
        | .error e =>
            ([Step.checkAccess Resource.AccountRead, Step.svcFindByID accountID],
             Terminal.envelopeJSON
               (((Response.new.Status 404).Error (ErrVal.svc e)).MessageT
                 Term.Record_Not_Found []) none)
        | .ok account =>
            ([Step.checkAccess Resource.AccountRead, Step.svcFindByID accountID,
              Step.record EventKind.AccountView []],
             Terminal.envelopeJSON
               ((Response.new.Status 200).MessageT Term.V_info [thisAccount])
               (some (Payload.acct account)))

/-- Handler List of account.api.go. -/
def List (env : Env) : Output :=
  if env.access Resource.AccountWrite then
    ([Step.checkAccess Resource.AccountWrite],
     Terminal.envelopeJSON
       ((Response.new.Status 403).Error (ErrVal.term Term.You_dont_have_permission)) none)
  else
    match env.svcList env.params with
    | .error e =>
        ([Step.checkAccess Resource.AccountWrite, Step.svcList env.params],
         Terminal.envelopeJSON (Response.new.Error (ErrVal.svc e)) none)
    | .ok data =>
        ([Step.checkAccess Resource.AccountWrite, Step.svcList env.params,
          Step.record EventKind.AccountList []],
         Terminal.envelopeJSON
           ((Response.new.Status 200).MessageT Term.List_of_V [thisAccounts])
           (some (Payload.page data)))

/-- Handler Create of account.api.go. -/
def Create (env : Env) : Output :=
  if env.access Resource.AccountWrite then
    ([Step.checkAccess Resource.AccountWrite],
     Terminal.envelopeJSON
       ((Response.new.Status 403).Error (ErrVal.term Term.You_dont_have_permission)) none)
  else
    match env.bindBody with
    | .error e =>
        ([Step.checkAccess Resource.AccountWrite], Terminal.abortJSON 406 e)
    | .ok body =>
        let account := shouldBindJSON emptyAccount body
        match env.svcCreate account env.params with
        | .error e =>
            ([Step.checkAccess Resource.AccountWrite, Step.svcCreate account env.params],
             Terminal.envelopeJSON (Response.new.Error (ErrVal.svc e)) none)
        | .ok createdAccount =>
            ([Step.checkAccess Resource.AccountWrite, Step.svcCreate account env.params,
              Step.record EventKind.AccountCreate [none, some account]],
             Terminal.envelopeJSON
               ((Response.new.Status 200).MessageT Term.V_created_successfully [thisAccount])
               (some (Payload.acct createdAccount)))

/-- Handler Update of account.api.go. -/
def Update (env : Env) : Output :=
  if env.access Resource.AccountWrite then
    ([Step.checkAccess Resource.AccountWrite],
     Terminal.envelopeJSON
       ((Response.new.Status 403).Error (ErrVal.term Term.You_dont_have_permission)) none)
  else
    match env.parseID with
    | .error _ =>
        ([Step.checkAccess Resource.AccountWrite],
         Terminal.envelopeJSON (Response.new.Error (ErrVal.term Term.Invalid_ID)) none)
    | .ok accountID =>
        match env.bindBody with
        | .error e =>
            ([Step.checkAccess Resource.AccountWrite], Terminal.abortJSON 406 e)
        | .ok body =>
            let account := shouldBindJSON { emptyAccount with ID := accountID } body
            match env.svcFindByID account.ID with
            | .error _ =>
                ([Step.checkAccess Resource.AccountWrite, Step.svcFindByID account.ID],
                 Terminal.envelopeJSON
                   ((Response.new.Status 404).Error (ErrVal.term Term.Record_Not_Found)) none)
            | .ok accountBefore =>
                match env.svcSave account with
                | .error e =>
                    ([Step.checkAccess Resource.AccountWrite, Step.svcFindByID account.ID,
                      Step.svcSave account],
                     Terminal.envelopeJSON (Response.new.Error (ErrVal.svc e)) none)
                | .ok accountUpdated =>
                    ([Step.checkAccess Resource.AccountWrite, Step.svcFindByID account.ID,
                      Step.svcSave account,
                      Step.record EventKind.AccountUpdate [some accountBefore, some account]],
                     Terminal.envelopeJSON
                       ((Response.new.Status 200).MessageT Term.V_updated_successfully
                         [thisAccount])
                       (some (Payload.acct accountUpdated)))

/-- Handler Delete of account.api.go. -/
def Delete (env : Env) : Output :=
  if env.access Resource.AccountWrite then
    ([Step.checkAccess Resource.AccountWrite],
     Terminal.envelopeJSON
       ((Response.new.Status 403).Error (ErrVal.term Term.You_dont_have_permission)) none)
  else
    match env.parseID with
    | .error _ =>
        ([Step.checkAccess Resource.AccountWrite],
         Terminal.envelopeJSON (Response.new.Error (ErrVal.term Term.Invalid_ID)) none)
    | .ok accountID =>
        match env.svcDelete accountID with
        | .error e =>
            ([Step.checkAccess Resource.AccountWrite, Step.svcDelete accountID],
             Terminal.envelopeJSON ((Response.new.Status 500).Error (ErrVal.svc e)) none)
        | .ok account =>
            ([Step.checkAccess Resource.AccountWrite, Step.svcDelete accountID,
              Step.record EventKind.AccountDelete [some account]],
             Terminal.envelopeJSON
               ((Response.new.Status 200).MessageT Term.V_deleted_successfully [thisAccount])
               none)

/-- Handler Excel of account.api.go. The fluent workbook construction and
ex.Generate (sigma/utils/excel, not under src/) are one observable step whose
outcome env.generate supplies. -/
def Excel (env : Env) : Output :=
  if env.access Resource.AccountExcel then
    ([Step.checkAccess Resource.AccountExcel],
     Terminal.envelopeJSON
       ((Response.new.Status 403).Error (ErrVal.term Term.You_dont_have_permission)) none)
  else
    match env.svcExcel env.params with
    | .error _ =>
        ([Step.checkAccess Resource.AccountExcel, Step.svcExcel env.params],
         Terminal.envelopeJSON
           ((Response.new.Status 404).Error (ErrVal.term Term.Record_Not_Found)) none)
    | .ok _ =>
        match env.generate with
        | .error _ =>
            ([Step.checkAccess Resource.AccountExcel, Step.svcExcel env.params,
              Step.record EventKind.AccountExcel [], Step.excelGenerate],
             Terminal.rawJSON 500 "Error in generating Excel file")
        | .ok (buffer, downloadName) =>
            ([Step.checkAccess Resource.AccountExcel, Step.svcExcel env.params,
              Step.record EventKind.AccountExcel [], Step.excelGenerate],
             Terminal.dataFile 200 "application/octet-stream"
               [("Content-Description", "File Transfer"),
                ("Content-Disposition", "attachment; filename=" ++ downloadName)]
               buffer)

end AccountAPI

/-- The six handler verbs. -/
inductive Verb
  | findByID
  | list
  | create
  | update
  | delete
  | excel
deriving DecidableEq

/-- Dispatch to the handler of a verb. -/
def run : Verb → Env → Output
  | .findByID => AccountAPI.FindByID
  | .list => AccountAPI.List
  | .create => AccountAPI.Create
  | .update => AccountAPI.Update
  | .delete => AccountAPI.Delete
  | .excel => AccountAPI.Excel

/-- The capability each handler passes to CheckAccess. -/
def requiredCap : Verb → Resource
  | .findByID => Resource.AccountRead
  | .list => Resource.AccountWrite
  | .create => Resource.AccountWrite
  | .update => Resource.AccountWrite
  | .delete => Resource.AccountWrite
  | .excel => Resource.AccountExcel

/-- Is a step a service-layer call. -/
def Step.isSvc : Step → Bool
  | .svcFindByID _ => true
  | .svcList _ => true
  | .svcCreate _ _ => true
  | .svcSave _ => true
  | .svcDelete _ => true
  | .svcExcel _ => true
  | _ => false

/-- Is a step an audit-recorder invocation. -/
def Step.isRecord : Step → Bool
  | .record _ _ => true
  | _ => false

/-- The terminal envelope the handlers write on access denial. -/
def denyTerminal : Terminal :=
  Terminal.envelopeJSON
    ((Response.new.Status 403).Error (ErrVal.term Term.You_dont_have_permission)) none

/-- Did an Except-returning collaborator call succeed. -/
def exOk {α : Type} (e : Except String α) : Bool :=
  match e with
  | .ok _ => true
  | .error _ => false

/-- For each verb, whether the service call that its audit event describes is
reached on this request and returns success: the access check passes, the inputs
resolve, and the described call (FindByID for view, List for list, Create for
create, Save for update, Delete for delete, Excel for export) returns ok. -/
def describedSvcOK : Verb → Env → Bool
  | .findByID, env =>
      !env.access Resource.AccountRead &&
      (match env.parseID with
       | .ok i => exOk (env.svcFindByID i)
       | .error _ => false)
  | .list, env =>
      !env.access Resource.AccountWrite && exOk (env.svcList env.params)
  | .create, env =>
      !env.access Resource.AccountWrite &&
      (match env.bindBody with
       | .ok b => exOk (env.svcCreate (shouldBindJSON emptyAccount b) env.params)
       | .error _ => false)
  | .update, env =>
      !env.access Resource.AccountWrite &&
      (match env.parseID with
       | .ok i =>
           (match env.bindBody with
            | .ok b =>
                exOk (env.svcFindByID i) &&
                exOk (env.svcSave (shouldBindJSON { emptyAccount with ID := i } b))
            | .error _ => false)
       | .error _ => false)
  | .delete, env =>
      !env.access Resource.AccountWrite &&
      (match env.parseID with
       | .ok i => exOk (env.svcDelete i)
       | .error _ => false)
  | .excel, env =>
      !env.access Resource.AccountExcel && exOk (env.svcExcel env.params)

/-- Does a service-call step match the event kind whose audit record describes
it: view events describe FindByID, list events List, create events Create,
update events Save, delete events Delete, export events Excel. -/
def describesKind : EventKind → Step → Bool
  | .AccountView, .svcFindByID _ => true
  | .AccountList, .svcList _ => true
  | .AccountCreate, .svcCreate _ _ => true
  | .AccountUpdate, .svcSave _ => true
  | .AccountDelete, .svcDelete _ => true
  | .AccountExcel, .svcExcel _ => true
  | _, _ => false

/-- Helper for recordAfterDescribedSvc: walking the tail with the previous step
at hand, every record step must immediately follow the service call its event
kind describes. -/
def recAux : Step → List Step → Bool
  | _, [] => true
  | s, r :: rest =>
      (match r with
       | .record k _ => describesKind k s
       | _ => true) && recAux r rest

/-- Every audit-record step in a trace occurs immediately after the service-call
step that its event kind describes; in particular no record step comes first. -/
def recordAfterDescribedSvc : List Step → Bool
  | [] => true
  | .record _ _ :: _ => false
  | s :: rest => recAux s rest

/-- A fully successful request environment used to instantiate theorems on
concrete inputs. -/
def baseEnv : Env where
  access := fun _ => false
  parseID := .ok 1
  bindBody := .ok { bodyID := none, fields := "body" }
  params := "ps"
  svcFindByID := fun i => .ok { ID := i, fields := "stored" }
  svcList := fun _ => .ok "page"
  svcCreate := fun a _ => .ok a
  svcSave := fun a => .ok a
  svcDelete := fun i => .ok { ID := i, fields := "gone" }
  svcExcel := fun _ => .ok []
  generate := .ok ("bytes", "account.xlsx")

/-- An environment whose caller is denied every capability. -/
def envDenyAll : Env := { baseEnv with access := fun _ => true }

/-- An environment whose path identifier fails to parse. -/
def envBadID : Env := { baseEnv with parseID := .error "nope" }

/-- An environment whose request body fails to decode. -/
def envBadBody : Env := { baseEnv with bindBody := .error "bad" }

/-- An Update request with path identifier 42 and a body carrying the
conflicting identifier 7. -/
def envUpdate42 : Env :=
  { baseEnv with parseID := .ok 42, bindBody := .ok { bodyID := some 7, fields := "b" } }

/-- An environment where every service call fails while inputs resolve. -/
def envSvcErr : Env :=
  { baseEnv with
      parseID := .ok 5
      svcDelete := fun _ => .error "d"
      svcList := fun _ => .error "l"
      svcCreate := fun _ _ => .error "c"
      svcSave := fun _ => .error "s" }

/-- An environment whose Excel service fetch fails. -/
def envExcelFetchErr : Env := { baseEnv with svcExcel := fun _ => .error "x" }

/-- An environment whose workbook generation fails. -/
def envGenErr : Env := { baseEnv with generate := .error "g" }

/-- C1: for every request to any of the six handlers whose caller lacks the
required capability (CheckAccess reports denied), the handler writes the
terminal 403 envelope carrying the permission-denied term and performs no
service call and no audit-recorder call. -/
theorem denied_request_uniform_403 (v : Verb) (env : Env)
    (h : env.access (requiredCap v) = true) :
    run v env = ([Step.checkAccess (requiredCap v)], denyTerminal) ∧
    ∀ s ∈ (run v env).1, s.isSvc = false ∧ s.isRecord = false := by
  cases v <;>
    (simp only [requiredCap] at h ⊢) <;>
    simp [run, AccountAPI.FindByID, AccountAPI.List, AccountAPI.Create,
      AccountAPI.Update, AccountAPI.Delete, AccountAPI.Excel, denyTerminal, h,
      Step.isSvc, Step.isRecord]

/-- C1 witness: a caller denied every capability gets the 403 envelope from
Update with no service and no audit step. -/
theorem denied_request_uniform_403_witness :
    run Verb.update envDenyAll = ([Step.checkAccess (requiredCap Verb.update)], denyTerminal) ∧
    ∀ s ∈ (run Verb.update envDenyAll).1, s.isSvc = false ∧ s.isRecord = false :=
  denied_request_uniform_403 Verb.update envDenyAll rfl

/-- C5: on every request, List consults CheckAccess with the write capability
AccountWrite as its first observable step while FindByID consults it with the
read capability AccountRead, and the two capabilities are distinct. -/
theorem list_gates_write_findByID_gates_read (env : Env) :
    (run Verb.list env).1.head? = some (Step.checkAccess Resource.AccountWrite) ∧
    (run Verb.findByID env).1.head? = some (Step.checkAccess Resource.AccountRead) ∧
    Resource.AccountWrite ≠ Resource.AccountRead := by
  refine ⟨?_, ?_, by decide⟩
  · simp only [run, AccountAPI.List]
    cases h : env.access Resource.AccountWrite
    · cases hl : env.svcList env.params <;> simp
    · simp
  · simp only [run, AccountAPI.FindByID]
    cases h : env.access Resource.AccountRead
    · cases hp : env.parseID with
      | error e => simp
      | ok i => cases hf : env.svcFindByID i <;> simp [hf]
    · simp

/-- C2: on every Update request whose path identifier parses to i and whose
body decodes, any entity handed to the service Save call carries the path
identifier i, whatever identifier the body carried. -/
theorem update_saves_under_path_id (env : Env) (i : Nat) (a : Account)
    (hp : env.parseID = Except.ok i)
    (hs : Step.svcSave a ∈ (run Verb.update env).1) :
    a.ID = i := by
  simp only [run, AccountAPI.Update] at hs
  repeat' split at hs
  all_goals simp_all [shouldBindJSON]

/-- C2 witness: with path identifier 42 and a body carrying the conflicting
identifier 7, the entity handed to Save has identifier 42. -/
theorem update_saves_under_path_id_witness :
    envUpdate42.parseID = Except.ok 42 ∧
    Step.svcSave (Account.mk 42 "b") ∈ (run Verb.update envUpdate42).1 ∧
    (Account.mk 42 "b").ID = 42 :=
  ⟨rfl, by decide, update_saves_under_path_id envUpdate42 42 (Account.mk 42 "b") rfl (by decide)⟩

/-- C3: for every request to every verb, the trace contains exactly one
audit-record step when the service call its event describes returned success and
none otherwise, and every audit-record step occurs immediately after the
service-call step its event kind describes; the terminal response is written
only after the whole trace, so recording always precedes the response. -/
theorem audit_iff_described_service_success (v : Verb) (env : Env) :
    (run v env).1.countP Step.isRecord = (if describedSvcOK v env then 1 else 0) ∧
    recordAfterDescribedSvc (run v env).1 = true := by
  cases v <;>
    simp only [run, AccountAPI.FindByID, AccountAPI.List, AccountAPI.Create,
      AccountAPI.Update, AccountAPI.Delete, AccountAPI.Excel] <;>
    (repeat' split) <;>
    simp_all [describedSvcOK, exOk, recordAfterDescribedSvc, recAux, describesKind,
      Step.isRecord, List.countP_cons, shouldBindJSON]

/-- C4: on one request whose service calls all fail, Delete answers with an
explicit 500 envelope carrying the service error, while List, Create and Update
answer a service-call error with the generic envelope carrying the service
error and no explicit status at all (in particular no 5xx). -/
theorem delete_500_others_generic (env : Env) (i : Nat) (b : Body)
    (e1 e2 e3 e4 : String) (a : Account)
    (hacc : ∀ r, env.access r = false)
    (hp : env.parseID = Except.ok i)
    (hb : env.bindBody = Except.ok b)
    (hdel : env.svcDelete i = Except.error e1)
    (hlist : env.svcList env.params = Except.error e2)
    (hcreate : env.svcCreate (shouldBindJSON emptyAccount b) env.params = Except.error e3)
    (hfind : env.svcFindByID i = Except.ok a)
    (hsave : env.svcSave (shouldBindJSON { emptyAccount with ID := i } b) = Except.error e4) :
    (run Verb.delete env).2 =
      Terminal.envelopeJSON ((Response.new.Status 500).Error (ErrVal.svc e1)) none ∧
    (run Verb.list env).2 =
      Terminal.envelopeJSON (Response.new.Error (ErrVal.svc e2)) none ∧
    (run Verb.create env).2 =
      Terminal.envelopeJSON (Response.new.Error (ErrVal.svc e3)) none ∧
    (run Verb.update env).2 =
      Terminal.envelopeJSON (Response.new.Error (ErrVal.svc e4)) none := by
  simp only [shouldBindJSON] at hcreate hsave
  refine ⟨?_, ?_, ?_, ?_⟩ <;>
    simp [run, AccountAPI.Delete, AccountAPI.List, AccountAPI.Create, AccountAPI.Update,
      shouldBindJSON, hacc, hp, hb, hdel, hlist, hcreate, hfind, hsave]

/-- C4 witness: in envSvcErr every service call fails; Delete gets status 500
and List, Create, Update get the status-free generic envelope. -/
theorem delete_500_others_generic_witness :
    (run Verb.delete envSvcErr).2 =
      Terminal.envelopeJSON ((Response.new.Status 500).Error (ErrVal.svc "d")) none ∧
    (run Verb.list envSvcErr).2 =
      Terminal.envelopeJSON (Response.new.Error (ErrVal.svc "l")) none ∧
    (run Verb.create envSvcErr).2 =
      Terminal.envelopeJSON (Response.new.Error (ErrVal.svc "c")) none ∧
    (run Verb.update envSvcErr).2 =
      Terminal.envelopeJSON (Response.new.Error (ErrVal.svc "s")) none :=
  delete_500_others_generic envSvcErr 5 (Body.mk none "body") "d" "l" "c" "s"
    (Account.mk 5 "stored") (fun _ => rfl) rfl rfl rfl rfl rfl rfl rfl

/-- C6: on every Create request passing the access check whose body decodes and
whose service Create call succeeds, the trace records the create event with an
absent before snapshot and the submitted entity as the after snapshot, and the
terminal 200 envelope carries the entity the service returned. -/
theorem create_audit_and_payload (env : Env) (b : Body) (created : Account)
    (hacc : env.access Resource.AccountWrite = false)
    (hb : env.bindBody = Except.ok b)
    (hc : env.svcCreate (shouldBindJSON emptyAccount b) env.params = Except.ok created) :
    (run Verb.create env).1 =
      [Step.checkAccess Resource.AccountWrite,
       Step.svcCreate (shouldBindJSON emptyAccount b) env.params,
       Step.record EventKind.AccountCreate [none, some (shouldBindJSON emptyAccount b)]] ∧
    (run Verb.create env).2 =
      Terminal.envelopeJSON
        ((Response.new.Status 200).MessageT Term.V_created_successfully [thisAccount])
        (some (Payload.acct created)) := by
  constructor <;> simp [run, AccountAPI.Create, hacc, hb, hc]

/-- C6 witness: on baseEnv the create event carries before none and after the
submitted entity, and the envelope carries the created entity returned by the
service. -/
theorem create_audit_and_payload_witness :
    (run Verb.create baseEnv).1 =
      [Step.checkAccess Resource.AccountWrite,
       Step.svcCreate (shouldBindJSON emptyAccount (Body.mk none "body")) baseEnv.params,
       Step.record EventKind.AccountCreate
         [none, some (shouldBindJSON emptyAccount (Body.mk none "body"))]] ∧
    (run Verb.create baseEnv).2 =
      Terminal.envelopeJSON
        ((Response.new.Status 200).MessageT Term.V_created_successfully [thisAccount])
        (some (Payload.acct (Account.mk 0 "body"))) :=
  create_audit_and_payload baseEnv (Body.mk none "body") (Account.mk 0 "body") rfl rfl rfl

/-- C7: on Excel requests passing the access check, a service fetch error gives
the terminal 404 envelope, a workbook generation error gives the raw 500 result
with a non-localized message outside the envelope shape, and success streams the
buffer as a binary download with attachment headers and no further envelope. -/
theorem excel_error_and_success_modes (env1 env2 env3 : Env)
    (e g buf name : String) (acs1 acs2 : List Account)
    (h1 : env1.access Resource.AccountExcel = false)
    (h2 : env1.svcExcel env1.params = Except.error e)
    (h3 : env2.access Resource.AccountExcel = false)
    (h4 : env2.svcExcel env2.params = Except.ok acs1)
    (h5 : env2.generate = Except.error g)
    (h6 : env3.access Resource.AccountExcel = false)
    (h7 : env3.svcExcel env3.params = Except.ok acs2)
    (h8 : env3.generate = Except.ok (buf, name)) :
    (run Verb.excel env1).2 =
      Terminal.envelopeJSON
        ((Response.new.Status 404).Error (ErrVal.term Term.Record_Not_Found)) none ∧
    (run Verb.excel env2).2 = Terminal.rawJSON 500 "Error in generating Excel file" ∧
    (run Verb.excel env3).2 =
      Terminal.dataFile 200 "application/octet-stream"
        [("Content-Description", "File Transfer"),
         ("Content-Disposition", "attachment; filename=" ++ name)] buf := by
  refine ⟨?_, ?_, ?_⟩ <;>
    simp [run, AccountAPI.Excel, h1, h2, h3, h4, h5, h6, h7, h8]

/-- C7 witness: the three Excel outcomes at concrete environments. -/
theorem excel_error_and_success_modes_witness :
    (run Verb.excel envExcelFetchErr).2 =
      Terminal.envelopeJSON
        ((Response.new.Status 404).Error (ErrVal.term Term.Record_Not_Found)) none ∧
    (run Verb.excel envGenErr).2 = Terminal.rawJSON 500 "Error in generating Excel file" ∧
    (run Verb.excel baseEnv).2 =
      Terminal.dataFile 200 "application/octet-stream"
        [("Content-Description", "File Transfer"),
         ("Content-Disposition", "attachment; filename=" ++ "account.xlsx")] "bytes" :=
  excel_error_and_success_modes envExcelFetchErr envGenErr baseEnv
    "x" "g" "bytes" "account.xlsx" [] [] rfl rfl rfl rfl rfl rfl rfl rfl

/-- C8: on a Create or Update request whose body fails to decode (after, for
Update, the path identifier parsed), the handler aborts with the raw 406
response carrying the binding error, outside the standard envelope, and its
trace holds no service call. -/
theorem malformed_body_aborts_406 (envc envu : Env) (i : Nat) (e f : String)
    (h1 : envc.access Resource.AccountWrite = false)
    (h2 : envc.bindBody = Except.error e)
    (h3 : envu.access Resource.AccountWrite = false)
    (h4 : envu.parseID = Except.ok i)
    (h5 : envu.bindBody = Except.error f) :
    run Verb.create envc =
      ([Step.checkAccess Resource.AccountWrite], Terminal.abortJSON 406 e) ∧
    run Verb.update envu =
      ([Step.checkAccess Resource.AccountWrite], Terminal.abortJSON 406 f) := by
  constructor <;>
    simp [run, AccountAPI.Create, AccountAPI.Update, h1, h2, h3, h4, h5]

/-- C8 witness: with an undecodable body, Create and Update abort with the raw
406 response and make no service call. -/
theorem malformed_body_aborts_406_witness :
    run Verb.create envBadBody =
      ([Step.checkAccess Resource.AccountWrite], Terminal.abortJSON 406 "bad") ∧
    run Verb.update envBadBody =
      ([Step.checkAccess Resource.AccountWrite], Terminal.abortJSON 406 "bad") :=
  malformed_body_aborts_406 envBadBody envBadBody 1 "bad" "bad" rfl rfl rfl rfl rfl

/-- C9: on a FindByID, Update or Delete request whose path identifier fails to
parse, the terminal envelope carries the Invalid_ID error and its builder never
had an explicit status set, so the status field is none (the default the
envelope supplies), unlike the 403, 404 and 500 branches. -/
theorem invalid_id_envelope_no_status (env : Env) (e : String)
    (h0 : env.access Resource.AccountRead = false)
    (h1 : env.access Resource.AccountWrite = false)
    (hp : env.parseID = Except.error e) :
    (run Verb.findByID env).2 =
      Terminal.envelopeJSON (Response.new.Error (ErrVal.term Term.Invalid_ID)) none ∧
    (run Verb.update env).2 =
      Terminal.envelopeJSON (Response.new.Error (ErrVal.term Term.Invalid_ID)) none ∧
    (run Verb.delete env).2 =
      Terminal.envelopeJSON (Response.new.Error (ErrVal.term Term.Invalid_ID)) none ∧
    (Response.new.Error (ErrVal.term Term.Invalid_ID)).status = none := by
  refine ⟨?_, ?_, ?_, rfl⟩ <;>
    simp [run, AccountAPI.FindByID, AccountAPI.Update, AccountAPI.Delete, h0, h1, hp]

/-- C9 witness: with an unparsable path identifier the three handlers answer
with the Invalid_ID envelope whose status field is none. -/
theorem invalid_id_envelope_no_status_witness :
    (run Verb.findByID envBadID).2 =
      Terminal.envelopeJSON (Response.new.Error (ErrVal.term Term.Invalid_ID)) none ∧
    (run Verb.update envBadID).2 =
      Terminal.envelopeJSON (Response.new.Error (ErrVal.term Term.Invalid_ID)) none ∧
    (run Verb.delete envBadID).2 =
      Terminal.envelopeJSON (Response.new.Error (ErrVal.term Term.Invalid_ID)) none ∧
    (Response.new.Error (ErrVal.term Term.Invalid_ID)).status = none :=
  invalid_id_envelope_no_status envBadID "nope" rfl rfl rfl

/-- C10: on an Excel request whose service fetch succeeds but whose workbook
generation fails, the trace records the export audit event strictly before the
workbook-generation step and the request is answered with the raw 500 result,
so the export event was emitted although the request failed. -/
theorem excel_audit_before_generate (env : Env) (acs : List Account) (g : String)
    (h1 : env.access Resource.AccountExcel = false)
    (h2 : env.svcExcel env.params = Except.ok acs)
    (h3 : env.generate = Except.error g) :
    (run Verb.excel env).1 =
      [Step.checkAccess Resource.AccountExcel, Step.svcExcel env.params,
       Step.record EventKind.AccountExcel [], Step.excelGenerate] ∧
    (run Verb.excel env).2 = Terminal.rawJSON 500 "Error in generating Excel file" := by
  constructor <;> simp [run, AccountAPI.Excel, h1, h2, h3]

/-- C10 witness: in envGenErr the export event is recorded at position two of
the trace, before the workbook-generation step, and the response is the raw
500 result. -/
theorem excel_audit_before_generate_witness :
    (run Verb.excel envGenErr).1 =
      [Step.checkAccess Resource.AccountExcel, Step.svcExcel envGenErr.params,
       Step.record EventKind.AccountExcel [], Step.excelGenerate] ∧
    (run Verb.excel envGenErr).2 = Terminal.rawJSON 500 "Error in generating Excel file" :=
  excel_audit_before_generate envGenErr [] "g" rfl rfl rfl
